import Mathlib

/-!
Shallow embedding of the movie-recommender core (`src/app.py`) and proofs
about its cache, recommendation and curated-listing behaviour.

Modelling conventions:
* Python floats used as similarity scores and ratings are modelled as `ℚ`;
  `NaN` cells (produced by `pd.to_numeric(errors="coerce")`) are `Option.none`.
* A movie identifier as it arrives from JSON / the dataset is `MId`
  (absent, integer, or string; Python floats that are whole numbers behave
  like the corresponding integer and are not modelled separately).
* `fetch_poster` normalises an identifier with `int(movie_id)`, falling back
  to the raw value when the conversion fails; the normalised cache/blacklist
  key is `Key`.  `String.toInt?` stands in for Python's `int(str)` (both
  accept an optional sign followed by digits; Python additionally strips
  whitespace and underscores, which no claim depends on).
* The TMDB endpoint `/movie/{id}` is a pure function `World := Key → Resp`
  describing, for each key, how the single HTTP attempt of one call ends:
  transport error / timeout (`safe_get` returns `None`), HTTP 404, another
  non-2xx status, a 2xx body whose JSON parse fails, or a 2xx JSON body with
  a `poster_path` field (absent/null is modelled as the empty string, which
  Python treats identically via truthiness).
* Mutable module state (`poster_cache`, `bad_tmdb_ids`, and the pickle file
  behind `save_bad_ids`/`load_bad_ids`) is threaded explicitly as `St`.
  `poster_cache` is an association list with newest binding first, which has
  the same lookup semantics as a Python dict.
-/

/-- Python `str.lower()` on one ASCII character. -/
def lowerChar (c : Char) : Char :=
  if c.val ≥ 65 && c.val ≤ 90 then Char.ofNat (c.toNat + 32) else c

/-- Python `str.lower()` (ASCII range; the catalog titles are ASCII). -/
def pyLower (s : String) : String :=
  ⟨s.data.map lowerChar⟩

/-- Whitespace removed by Python's `str.strip()` (common ASCII forms). -/
def isSpaceChar (c : Char) : Bool :=
  c = ' ' || c = '\t' || c = '\n' || c = '\r'

/-- Python `str.strip()`. -/
def pyStrip (s : String) : String :=
  ⟨((s.data.dropWhile isSpaceChar).reverse.dropWhile isSpaceChar).reverse⟩

/-- Python `v.startswith("/")`. -/
def startsWithSlash (s : String) : Bool :=
  match s.data with
  | [] => false
  | c :: _ => c = '/'

/-- Decimal value of an ASCII digit. -/
def digitVal (c : Char) : Option Nat :=
  if c.toNat ≥ 48 && c.toNat ≤ 57 then some (c.toNat - 48) else none

/-- Value of a non-empty digit run, most significant first. -/
def digitsVal (acc : Nat) : List Char → Option Nat
  | [] => some acc
  | c :: rest =>
    match digitVal c with
    | some d => digitsVal (acc * 10 + d) rest
    | none => none

/-- Python `int(str)`: an optional sign followed by at least one digit
(Python additionally tolerates surrounding whitespace and underscores,
which no claim depends on). -/
def pyInt? (s : String) : Option Int :=
  match s.data with
  | [] => none
  | '-' :: rest =>
    if rest.isEmpty then none else (digitsVal 0 rest).map (fun n => -(n : Int))
  | '+' :: rest =>
    if rest.isEmpty then none else (digitsVal 0 rest).map (fun n => (n : Int))
  | l => (digitsVal 0 l).map (fun n => (n : Int))

/-- Normalised cache/blacklist key: `int(movie_id)` when the conversion
succeeds, otherwise the raw string. -/
inductive Key where
  | kint (n : Int)
  | kstr (s : String)
deriving DecidableEq, Repr

/-- A movie identifier value as the Python code receives it: `None`/NaN,
an integer, or a string. -/
inductive MId where
  | mnone
  | mint (n : Int)
  | mstr (s : String)
deriving DecidableEq, Repr, Inhabited

/-- Python truthiness of an identifier: `if not movie_id` fires for
`None`, `0` and `""`. -/
def isFalsy : MId → Bool
  | .mnone => true
  | .mint n => n = 0
  | .mstr s => s = ""

/-- `int(movie_id)` with fallback to the raw value (`fetch_poster` lines
54–57).  Only reached for truthy identifiers, so the `.mnone` case is
arbitrary. -/
def toKey : MId → Key
  | .mnone => .kstr ""
  | .mint n => .kint n
  | .mstr s =>
    match pyInt? s with
    | some n => .kint n
    | none => .kstr s

/-- Python `movie_id in bad_tmdb_ids` on the *raw* identifier, as
`movie_info` performs it (line 277): an int equals only an int entry and a
string only a string entry — `"999" in {999}` is `False` in Python. -/
def rawMem (m : MId) (bad : List Key) : Bool :=
  match m with
  | .mnone => false
  | .mint n => bad.contains (.kint n)
  | .mstr s => bad.contains (.kstr s)

/-- Outcome of the one HTTP attempt a `fetch_poster` call makes for a key. -/
inductive Resp where
  | noResp                      -- safe_get returned None (timeout/transport)
  | notFound                    -- status 404
  | badStatus                   -- non-ok status other than 404
  | okMalformed                 -- 2xx but r.json() raises
  | okJson (posterPath : String) -- 2xx; "" models an absent/null poster_path
deriving DecidableEq, Repr

/-- The remote provider, as seen by this process. -/
def World := Key → Resp

/-- Module-level mutable state: the in-memory poster cache, the in-memory
blacklist `bad_tmdb_ids`, and the pickle file written by `save_bad_ids`. -/
structure St where
  posterCache : List (Key × Option String)
  badIds : List Key
  disk : List Key
deriving DecidableEq, Repr

/-- Dict lookup in the association-list model of `poster_cache`. -/
def cacheGet (c : List (Key × Option String)) (k : Key) : Option (Option String) :=
  match c with
  | [] => none
  | (k', v) :: rest => if k' = k then some v else cacheGet rest k

/-- Process restart: `poster_cache = {}` is rebuilt empty and
`bad_tmdb_ids = load_bad_ids()` is reloaded from the pickle file. -/
def restart (disk : List Key) : St :=
  ⟨[], disk, disk⟩

def PLACEHOLDER_POSTER : String :=
  "https://placehold.co/500x750/333/FFFFFF?text=No+Poster"

/-- TMDB image base used for poster paths (`https://image.tmdb.org/t/p/w500`). -/
def tmdbImageBase : String := "https://image.tmdb.org/t/p/w500"

/-- Result of one `fetch_poster` call: returned value, state after the
call, and whether a remote request was issued. -/
structure FetchOut where
  result : Option String
  state : St
  remoteCall : Bool
deriving DecidableEq, Repr

/-- `fetch_poster` (app.py lines 50–92).  `apiKey` is the truthiness of
`TMDB_API_KEY`. -/
def fetch_poster (world : World) (apiKey : Bool) (s : St) (movie_id : MId) : FetchOut :=
  if isFalsy movie_id then ⟨none, s, false⟩
  else
    let key := toKey movie_id
    match cacheGet s.posterCache key with
    | some v => ⟨v, s, false⟩
    | none =>
      if key ∈ s.badIds then
        ⟨none, { s with posterCache := (key, none) :: s.posterCache }, false⟩
      else if !apiKey then
        ⟨none, { s with posterCache := (key, none) :: s.posterCache }, false⟩
      else
        match world key with
        | .noResp =>
          ⟨none, { s with posterCache := (key, none) :: s.posterCache }, true⟩
        | .notFound =>
          -- blacklist, flush wholesale to disk, and cache None
          ⟨none, ⟨(key, none) :: s.posterCache, key :: s.badIds, key :: s.badIds⟩, true⟩
        | .badStatus =>
          ⟨none, { s with posterCache := (key, none) :: s.posterCache }, true⟩
        | .okMalformed =>
          ⟨none, { s with posterCache := (key, none) :: s.posterCache }, true⟩
        | .okJson posterPath =>
          if posterPath ≠ "" then
            let full :=
              if startsWithSlash posterPath then tmdbImageBase ++ posterPath else posterPath
            ⟨some full, { s with posterCache := (key, some full) :: s.posterCache }, true⟩
          else
            ⟨none, { s with posterCache := (key, none) :: s.posterCache }, true⟩

/-- The guard of the TMDB section of `movie_info` (app.py line 277):
`if movie_id and movie_id not in bad_tmdb_ids and TMDB_API_KEY`.  `true`
means the endpoint issues its TMDB requests for this identifier. -/
def movie_info_calls_tmdb (apiKey : Bool) (s : St) (movie_id : MId) : Bool :=
  !isFalsy movie_id && !rawMem movie_id s.badIds && apiKey

/-- The `genres` cell of a row: a Python list of labels, a delimited
string, or absent/NaN. -/
inductive GenreVal where
  | glist (gs : List String)
  | gstr (s : String)
  | gabsent
deriving DecidableEq, Repr, Inhabited

/-- One row of the `movies` DataFrame.  `vote_average` and `year` are
`none` when the coerced numeric value is NaN; the three poster columns are
`none` when the cell is absent or not a string. -/
structure MovieRec where
  title : String
  movie_id : MId
  year : Option Int
  vote_average : Option ℚ
  genres : GenreVal
  poster : Option String
  poster_url : Option String
  poster_path : Option String
  overview : Option String
deriving DecidableEq, Repr, Inhabited

/-- Python truthiness of an optional string (`if not poster`). -/
def optTruthy : Option String → Bool
  | none => false
  | some s => s ≠ ""

/-- Expansion of a provider-relative poster path against the image base
(`extract_existing_poster` lines 118–120). -/
def expandPoster (v : String) : String :=
  if startsWithSlash v then tmdbImageBase ++ v else v

/-- One iteration of the loop in `extract_existing_poster`: accept the
cell when it is a string whose strip is non-empty, expanding a leading
slash. -/
def posterField (v : Option String) : Option String :=
  match v with
  | some s => if pyStrip s ≠ "" then some (expandPoster (pyStrip s)) else none
  | none => none

/-- `extract_existing_poster` (app.py lines 114–121): first usable value
among the `poster`, `poster_url`, `poster_path` cells. -/
def extract_existing_poster (row : MovieRec) : Option String :=
  match posterField row.poster with
  | some v => some v
  | none =>
    match posterField row.poster_url with
    | some v => some v
    | none => posterField row.poster_path

/-- The dict `get_movie_details` returns.  `year = none` renders as
`"N/A"`; `rating = none` is a NaN `vote_average`, which the f-string
renders as `"nan"` — the one-decimal rendering of a present rating is
kept as the rational value since no behaviour below depends on it. -/
structure Details where
  title : String
  poster : String
  movie_id : MId
  year : Option Int
  rating : Option ℚ
deriving DecidableEq, Repr

/-- Result of one `get_movie_details` call. -/
structure DetOut where
  det : Details
  state : St
  remoteCall : Bool
deriving DecidableEq, Repr

/-- `get_movie_details` (app.py lines 123–139): embedded poster first,
then `fetch_poster`, then the placeholder. -/
def get_movie_details (world : World) (apiKey : Bool) (s : St) (row : MovieRec) : DetOut :=
  let p0 := extract_existing_poster row
  if optTruthy p0 then
    ⟨⟨row.title, p0.getD "", row.movie_id, row.year, row.vote_average⟩, s, false⟩
  else
    let out := fetch_poster world apiKey s row.movie_id
    let poster := if optTruthy out.result then out.result.getD "" else PLACEHOLDER_POSTER
    ⟨⟨row.title, poster, row.movie_id, row.year, row.vote_average⟩, out.state, out.remoteCall⟩

/-- Sequentially resolve a list of rows through `get_movie_details`,
threading the cache state (the `for` loops of `recommend`,
`get_curated_movies` and `get_movies_by_genre`). -/
def resolveAll (world : World) (apiKey : Bool) (s : St) : List MovieRec → List Details × St
  | [] => ([], s)
  | row :: rest =>
    let o := get_movie_details world apiKey s row
    let (ds, s') := resolveAll world apiKey o.state rest
    (o.det :: ds, s')

/-- The order in which Python's stable `sorted(enumerate(row),
reverse=True, key=lambda x: x[1])` arranges two entries: higher score
first, equal scores kept in original (ascending-index) order.  Since the
enumerated indices are distinct, the sorted result is the unique
arrangement sorted by this relation, so any sort by it reproduces
Python's output. -/
def scoreLe (a b : Nat × ℚ) : Prop :=
  b.2 < a.2 ∨ (a.2 = b.2 ∧ a.1 ≤ b.1)

instance : DecidableRel scoreLe := fun a b => by
  unfold scoreLe; infer_instance

instance : IsTotal (Nat × ℚ) scoreLe where
  total a b := by
    rcases lt_trichotomy a.2 b.2 with h | h | h
    · exact Or.inr (Or.inl h)
    · rcases Nat.le_total a.1 b.1 with h1 | h1
      · exact Or.inl (Or.inr ⟨h, h1⟩)
      · exact Or.inr (Or.inr ⟨h.symm, h1⟩)
    · exact Or.inl (Or.inl h)

instance : IsTrans (Nat × ℚ) scoreLe where
  trans a b c hab hbc := by
    rcases hab with h | ⟨he, hi⟩
    · rcases hbc with h2 | ⟨he2, _⟩
      · exact Or.inl (h2.trans h)
      · exact Or.inl (he2 ▸ h)
    · rcases hbc with h2 | ⟨he2, hi2⟩
      · exact Or.inl (he ▸ h2)
      · exact Or.inr ⟨he.trans he2, hi.trans hi2⟩

/-- Python's `sorted(..., reverse=True, key=lambda x: x[1])` over an
enumerated similarity row. -/
def pySortDesc (l : List (Nat × ℚ)) : List (Nat × ℚ) :=
  List.insertionSort scoreLe l

/-- Index of the first row satisfying a predicate, as
`movies[mask].index[0]` selects it. -/
def firstIdx (p : MovieRec → Bool) : List MovieRec → Option Nat
  | [] => none
  | r :: rest => if p r then some 0 else (firstIdx p rest).map (· + 1)

/-- Title lookup of `recommend` (lines 144–150): exact match on the
`title` column first, then a lower-cased match; index of the first row
that matches. -/
def findTitleIndex (cat : List MovieRec) (movie : String) : Option Nat :=
  match firstIdx (fun r => r.title == movie) cat with
  | some i => some i
  | none => firstIdx (fun r => pyLower r.title == pyLower movie) cat

/-- The index/score pairs `distances[1:6]` that `recommend` resolves. -/
def recommendSel (sim : List (List ℚ)) (idx : Nat) : List (Nat × ℚ) :=
  ((pySortDesc (sim.getD idx []).enum).drop 1).take 5

/-- `recommend` (app.py lines 141–156).  `movies` and `similarity` are
`none` when the pickles failed to load.  A similarity row shorter than
the catalog cannot occur with aligned artifacts; out-of-range accesses
use `getD` where Python would raise. -/
def recommend (world : World) (apiKey : Bool) (s : St)
    (movies : Option (List MovieRec)) (similarity : Option (List (List ℚ)))
    (movie : String) : List Details × St :=
  match movies, similarity with
  | some cat, some sim =>
    if movie = "" then ([], s)
    else
      match findTitleIndex cat movie with
      | none => ([], s)
      | some idx =>
        resolveAll world apiKey s
          ((recommendSel sim idx).map (fun p => cat.getD p.1 default))
  | _, _ => ([], s)

/-- The numeric column `sort_by` of a row. The app only ever sorts by
`vote_average` (and `year` would also be numeric); any other name yields
no value. -/
def colVal (sortBy : String) (r : MovieRec) : Option ℚ :=
  if sortBy = "vote_average" then r.vote_average
  else if sortBy = "year" then r.year.map (fun n => (n : ℚ))
  else none

/-- The filter `(movies["vote_average"] > 0) & (movies["vote_average"] <= 10)`;
NaN compares false on both sides. -/
def ratingInRange (r : MovieRec) : Bool :=
  match r.vote_average with
  | some q => decide (0 < q ∧ q ≤ 10)
  | none => false

/-- Descending order on optional column values as
`sort_values(..., ascending=False)` arranges them: larger values first,
NaN (`none`) last. -/
def ovalGe (a b : Option ℚ) : Prop :=
  match a, b with
  | some x, some y => y ≤ x
  | some _, none => True
  | none, some _ => False
  | none, none => True

instance : DecidableRel ovalGe := fun a b => by
  unfold ovalGe
  match a, b with
  | some _, some _ => infer_instance
  | some _, none => infer_instance
  | none, some _ => infer_instance
  | none, none => infer_instance

/-- Row order used by `sort_values(sort_by, ascending=False)`.  pandas'
default quicksort leaves the order of equal keys unspecified; we fix the
stable order — every theorem below about sorted output is independent of
the tie order. -/
def rowGe (sortBy : String) (a b : MovieRec) : Prop :=
  ovalGe (colVal sortBy a) (colVal sortBy b)

instance (sortBy : String) : DecidableRel (rowGe sortBy) := fun a b => by
  unfold rowGe; infer_instance

instance (sortBy : String) : IsTotal MovieRec (rowGe sortBy) where
  total a b := by
    unfold rowGe ovalGe
    rcases h1 : colVal sortBy a with _ | x <;> rcases h2 : colVal sortBy b with _ | y <;>
      simp [h1, h2]
    exact le_total y x

instance (sortBy : String) : IsTrans MovieRec (rowGe sortBy) where
  trans a b c hab hbc := by
    unfold rowGe ovalGe at *
    rcases h1 : colVal sortBy a with _ | x <;> rcases h2 : colVal sortBy b with _ | y <;>
      rcases h3 : colVal sortBy c with _ | z <;> simp [h1, h2, h3] at *
    exact le_trans hbc hab

/-- `get_curated_movies` (app.py lines 158–168): for the `vote_average`
criterion keep ratings in `(0, 10]`, drop NaN in the sort column, sort
descending, resolve the first `n` rows. -/
def get_curated_movies (world : World) (apiKey : Bool) (s : St)
    (movies : Option (List MovieRec)) (sortBy : String) (n : Nat) :
    List Details × St :=
  match movies with
  | none => ([], s)
  | some cat =>
    let df := if sortBy = "vote_average" then cat.filter ratingInRange else cat
    let kept := df.filter (fun r => (colVal sortBy r).isSome)
    let sorted := List.insertionSort (rowGe sortBy) kept
    resolveAll world apiKey s (sorted.take n)

/-- The mask `movies["genres"].apply(lambda x: genre_name in x if
isinstance(x, list) else False)` (line 174): a list cell matches by exact
membership; a string or absent cell never matches.  The lambda cannot
raise, so the `str.contains` fallback of the `except` branch never runs. -/
def genreMatch (genre : String) : GenreVal → Bool
  | .glist gs => gs.contains genre
  | _ => false

/-- `get_movies_by_genre` (app.py lines 170–184).  `genresCol` models
`"genres" in movies.columns`.  The rows passing the mask are sorted by
`vote_average` descending without dropping NaN (pandas puts NaN last). -/
def get_movies_by_genre (world : World) (apiKey : Bool) (s : St)
    (movies : Option (List MovieRec)) (genresCol : Bool) (genre : String) (n : Nat) :
    List Details × St :=
  match movies with
  | none => ([], s)
  | some cat =>
    if !genresCol then ([], s)
    else
      let gm := cat.filter (fun r => genreMatch genre r.genres)
      let sorted := List.insertionSort (rowGe "vote_average") gm
      resolveAll world apiKey s (sorted.take n)

/-- `c₂` preserves every binding visible in `c` (the poster cache only
ever gains bindings for previously unbound keys). -/
def cacheExt (c c₂ : List (Key × Option String)) : Prop :=
  ∀ k v, cacheGet c k = some v → cacheGet c₂ k = some v

/-! Concrete inputs used by witnesses and counterexamples. -/

/-- Fresh state: empty caches, empty blacklist file. -/
def st0 : St := ⟨[], [], []⟩

/-- A provider on which every request times out. -/
def wNo : World := fun _ => Resp.noResp

/-- A provider that answers 404 for id 999 and times out otherwise. -/
def w999 : World := fun k => if k = .kint 999 then .notFound else .noResp

/-- A provider that always answers with poster path `/x.jpg`. -/
def wOk : World := fun _ => Resp.okJson "/x.jpg"

/-- A bare row with the given title, rating, and genres. -/
def mkRow (t : String) (v : Option ℚ) (g : GenreVal) : MovieRec :=
  ⟨t, .mnone, none, v, g, none, none, none, none⟩

/-- Two-movie catalog for the `recommend` counterexample. -/
def catA : List MovieRec := [mkRow "A" none .gabsent, mkRow "B" none .gabsent]

/-- Similarity matrix in which B scores A's row higher than A itself. -/
def simA : List (List ℚ) := [[1, 2], [2, 3]]

/-- One movie whose genres are the list `["Action"]`. -/
def catGL : List MovieRec := [mkRow "M" (some 8) (.glist ["Action"])]

/-- The same movie with genres stored as the string `"Action"`. -/
def catGS : List MovieRec := [mkRow "M" (some 8) (.gstr "Action")]

/-- Catalog exercising the top-rated filter: one eligible rating, one
NaN, one above 10, one non-positive. -/
def catR : List MovieRec :=
  [mkRow "P" (some 8) .gabsent, mkRow "Q" none .gabsent,
   mkRow "R" (some 12) .gabsent, mkRow "S" (some 0) .gabsent]

/-- State of a run whose loaded blacklist already contains id 999. -/
def badSt : St := ⟨[], [Key.kint 999], [Key.kint 999]⟩

/-- A row carrying an embedded relative poster path. -/
def rowP : MovieRec :=
  ⟨"T", .mnone, none, none, .gabsent, some "/p.jpg", none, none, none⟩

/-! ## Branch equations for `fetch_poster` -/

theorem fp_falsy (w : World) (a : Bool) (s : St) (mid : MId)
    (h : isFalsy mid = true) : fetch_poster w a s mid = ⟨none, s, false⟩ := by
  simp [fetch_poster, h]

theorem fp_hit (w : World) (a : Bool) (s : St) (mid : MId) (v : Option String)
    (h : isFalsy mid = false) (hc : cacheGet s.posterCache (toKey mid) = some v) :
    fetch_poster w a s mid = ⟨v, s, false⟩ := by
  simp [fetch_poster, h, hc]

theorem fp_bad (w : World) (a : Bool) (s : St) (mid : MId)
    (h : isFalsy mid = false) (hc : cacheGet s.posterCache (toKey mid) = none)
    (hb : toKey mid ∈ s.badIds) :
    fetch_poster w a s mid =
      ⟨none, ⟨(toKey mid, none) :: s.posterCache, s.badIds, s.disk⟩, false⟩ := by
  simp [fetch_poster, h, hc, hb]

theorem fp_nokey (w : World) (s : St) (mid : MId)
    (h : isFalsy mid = false) (hc : cacheGet s.posterCache (toKey mid) = none)
    (hb : toKey mid ∉ s.badIds) :
    fetch_poster w false s mid =
      ⟨none, ⟨(toKey mid, none) :: s.posterCache, s.badIds, s.disk⟩, false⟩ := by
  simp [fetch_poster, h, hc, hb]

theorem fp_noResp (w : World) (s : St) (mid : MId)
    (h : isFalsy mid = false) (hc : cacheGet s.posterCache (toKey mid) = none)
    (hb : toKey mid ∉ s.badIds) (hw : w (toKey mid) = .noResp) :
    fetch_poster w true s mid =
      ⟨none, ⟨(toKey mid, none) :: s.posterCache, s.badIds, s.disk⟩, true⟩ := by
  simp [fetch_poster, h, hc, hb, hw]

theorem fp_404 (w : World) (s : St) (mid : MId)
    (h : isFalsy mid = false) (hc : cacheGet s.posterCache (toKey mid) = none)
    (hb : toKey mid ∉ s.badIds) (hw : w (toKey mid) = .notFound) :
    fetch_poster w true s mid =
      ⟨none, ⟨(toKey mid, none) :: s.posterCache,
             toKey mid :: s.badIds, toKey mid :: s.badIds⟩, true⟩ := by
  simp [fetch_poster, h, hc, hb, hw]

theorem fp_badStatus (w : World) (s : St) (mid : MId)
    (h : isFalsy mid = false) (hc : cacheGet s.posterCache (toKey mid) = none)
    (hb : toKey mid ∉ s.badIds) (hw : w (toKey mid) = .badStatus) :
    fetch_poster w true s mid =
      ⟨none, ⟨(toKey mid, none) :: s.posterCache, s.badIds, s.disk⟩, true⟩ := by
  simp [fetch_poster, h, hc, hb, hw]

theorem fp_malformed (w : World) (s : St) (mid : MId)
    (h : isFalsy mid = false) (hc : cacheGet s.posterCache (toKey mid) = none)
    (hb : toKey mid ∉ s.badIds) (hw : w (toKey mid) = .okMalformed) :
    fetch_poster w true s mid =
      ⟨none, ⟨(toKey mid, none) :: s.posterCache, s.badIds, s.disk⟩, true⟩ := by
  simp [fetch_poster, h, hc, hb, hw]

theorem fp_okJson_pos (w : World) (s : St) (mid : MId) (p : String)
    (h : isFalsy mid = false) (hc : cacheGet s.posterCache (toKey mid) = none)
    (hb : toKey mid ∉ s.badIds) (hw : w (toKey mid) = .okJson p) (hp : p ≠ "") :
    fetch_poster w true s mid =
      ⟨some (if startsWithSlash p then tmdbImageBase ++ p else p),
       ⟨(toKey mid, some (if startsWithSlash p then tmdbImageBase ++ p else p)) ::
          s.posterCache, s.badIds, s.disk⟩, true⟩ := by
  simp [fetch_poster, h, hc, hb, hw, hp]

theorem fp_okJson_empty (w : World) (s : St) (mid : MId)
    (h : isFalsy mid = false) (hc : cacheGet s.posterCache (toKey mid) = none)
    (hb : toKey mid ∉ s.badIds) (hw : w (toKey mid) = .okJson "") :
    fetch_poster w true s mid =
      ⟨none, ⟨(toKey mid, none) :: s.posterCache, s.badIds, s.disk⟩, true⟩ := by
  simp [fetch_poster, h, hc, hb, hw]

/-- On a cache miss the call always records its outcome (whatever it was)
under the normalised key at the front of the poster cache. -/
theorem fp_cache_write (w : World) (a : Bool) (s : St) (mid : MId)
    (h : isFalsy mid = false) (hc : cacheGet s.posterCache (toKey mid) = none) :
    (fetch_poster w a s mid).state.posterCache =
      (toKey mid, (fetch_poster w a s mid).result) :: s.posterCache := by
  by_cases hb : toKey mid ∈ s.badIds
  · rw [fp_bad w a s mid h hc hb]
  · cases a with
    | false => rw [fp_nokey w s mid h hc hb]
    | true =>
      cases hw : w (toKey mid) with
      | noResp => rw [fp_noResp w s mid h hc hb hw]
      | notFound => rw [fp_404 w s mid h hc hb hw]
      | badStatus => rw [fp_badStatus w s mid h hc hb hw]
      | okMalformed => rw [fp_malformed w s mid h hc hb hw]
      | okJson p =>
        by_cases hp : p = ""
        · subst hp; rw [fp_okJson_empty w s mid h hc hb hw]
        · rw [fp_okJson_pos w s mid p h hc hb hw hp]

/-- After any non-falsy call the returned value is cached under the key. -/
theorem fp_result_cached (w : World) (a : Bool) (s : St) (mid : MId)
    (h : isFalsy mid = false) :
    cacheGet (fetch_poster w a s mid).state.posterCache (toKey mid) =
      some (fetch_poster w a s mid).result := by
  cases hc : cacheGet s.posterCache (toKey mid) with
  | some v => rw [fp_hit w a s mid v h hc]; exact hc
  | none => rw [fp_cache_write w a s mid h hc]; simp [cacheGet]

/-- Repeating a `fetch_poster` call from the state it produced returns
the same value, changes nothing, and issues no remote request. -/
theorem fp_repeat (w : World) (a : Bool) (s : St) (mid : MId) :
    fetch_poster w a (fetch_poster w a s mid).state mid =
      ⟨(fetch_poster w a s mid).result, (fetch_poster w a s mid).state, false⟩ := by
  cases hf : isFalsy mid with
  | true => simp [fp_falsy, hf]
  | false => exact fp_hit w a _ mid _ hf (fp_result_cached w a s mid hf)

/-! ## Poster values are never empty -/

theorem append_ne_empty_left (a b : String) (ha : a ≠ "") : a ++ b ≠ "" := by
  intro h
  apply ha
  have hd := String.ext_iff.mp h
  rw [String.data_append] at hd
  exact String.ext (List.append_eq_nil.mp hd).1

theorem expandPoster_ne_empty (v : String) (hv : v ≠ "") : expandPoster v ≠ "" := by
  unfold expandPoster
  split
  · exact append_ne_empty_left _ _ (by decide)
  · exact hv

theorem posterField_ne_empty (v : Option String) (p : String)
    (h : posterField v = some p) : p ≠ "" := by
  cases v with
  | none => exact absurd h (by simp [posterField])
  | some t =>
    by_cases ht : pyStrip t ≠ ""
    · rw [posterField, if_pos ht] at h
      exact Option.some.inj h ▸ expandPoster_ne_empty _ ht
    · rw [posterField, if_neg ht] at h
      exact absurd h (by simp)

theorem extract_ne_empty (row : MovieRec) (p : String)
    (h : extract_existing_poster row = some p) : p ≠ "" := by
  unfold extract_existing_poster at h
  cases h1 : posterField row.poster with
  | some v =>
    rw [h1] at h
    exact Option.some.inj h ▸ posterField_ne_empty row.poster v h1
  | none =>
    rw [h1] at h
    cases h2 : posterField row.poster_url with
    | some v =>
      rw [h2] at h
      exact Option.some.inj h ▸ posterField_ne_empty row.poster_url v h2
    | none =>
      rw [h2] at h
      exact posterField_ne_empty row.poster_path p h

theorem optTruthy_getD_ne (v : Option String) (h : optTruthy v = true) :
    v.getD "" ≠ "" := by
  cases v with
  | none => simp [optTruthy] at h
  | some t => simpa [optTruthy] using h

/-! ## Claim C10 -/

/-- C10: for every falsy movie identifier (`None`, `0`, or the empty
string), `fetch_poster` returns `None` immediately, issues no remote
request, and leaves the poster cache, the in-memory blacklist and the
persisted blacklist all unchanged. -/
theorem C10_falsy_id_noop (w : World) (a : Bool) (s : St) (mid : MId)
    (h : isFalsy mid = true) :
    fetch_poster w a s mid = ⟨none, s, false⟩ :=
  fp_falsy w a s mid h

/-- Witness for C10, at the identifier `0`. -/
theorem C10_falsy_id_noop_witness :
    isFalsy (MId.mint 0) = true ∧
    fetch_poster wNo true st0 (MId.mint 0) = ⟨none, st0, false⟩ :=
  ⟨by decide, C10_falsy_id_noop wNo true st0 (MId.mint 0) (by decide)⟩

/-! ## Claim C9 -/

/-- C9: when the catalog or the similarity matrix failed to load (the
loader sets both to `None` on any failure), `recommend`,
`get_curated_movies` and `get_movies_by_genre` each detect the missing
dataset and return an empty result, leaving the state untouched, rather
than raising. -/
theorem C9_unavailable_dataset_empty :
    ∀ (w : World) (a : Bool) (s : St) (movie sortBy genre : String)
      (cat : Option (List MovieRec)) (sim : Option (List (List ℚ)))
      (n : Nat) (gc : Bool),
      recommend w a s none sim movie = ([], s) ∧
      recommend w a s cat none movie = ([], s) ∧
      get_curated_movies w a s none sortBy n = ([], s) ∧
      get_movies_by_genre w a s none gc genre n = ([], s) := by
  intro w a s movie sortBy genre cat sim n gc
  refine ⟨?_, ?_, rfl, rfl⟩
  · cases sim <;> rfl
  · cases cat <;> rfl

/-! ## Claim C3 -/

/-- C3: when a first `fetch_poster` call resolves an identifier to a
poster URL, a second call for the same identifier in the same run issues
no new remote request and returns the identical poster value from the
positive cache, changing nothing. -/
theorem C3_positive_cache_second_call (w : World) (a : Bool) (s : St) (mid : MId)
    (u : String) (h : (fetch_poster w a s mid).result = some u) :
    fetch_poster w a (fetch_poster w a s mid).state mid =
      ⟨some u, (fetch_poster w a s mid).state, false⟩ := by
  have h2 := fp_repeat w a s mid
  rwa [h] at h2

/-- Witness for C3: id 5 against a provider that returns poster path
`/x.jpg`. -/
theorem C3_positive_cache_second_call_witness :
    (fetch_poster wOk true st0 (MId.mint 5)).result =
      some "https://image.tmdb.org/t/p/w500/x.jpg" ∧
    fetch_poster wOk true (fetch_poster wOk true st0 (MId.mint 5)).state (MId.mint 5) =
      ⟨some "https://image.tmdb.org/t/p/w500/x.jpg",
       (fetch_poster wOk true st0 (MId.mint 5)).state, false⟩ :=
  ⟨by decide,
   C3_positive_cache_second_call wOk true st0 (MId.mint 5)
     "https://image.tmdb.org/t/p/w500/x.jpg" (by decide)⟩

/-! ## Claim C1 -/

/-- C1 fails as stated: `fetch_poster` blacklists the *normalised* key
(`int("999") = 999`), while `movie_info` tests the *raw* identifier for
blacklist membership (`"999" in {999}` is false in Python).  After the
string identifier `"999"` has been confirmed not-found and durably
blacklisted by `fetch_poster`, a `movie_info` resolution for that same
identifier still issues its TMDB requests. -/
theorem C1_counterexample :
    (fetch_poster w999 true st0 (MId.mstr "999")).state.badIds = [Key.kint 999] ∧
    (fetch_poster w999 true st0 (MId.mstr "999")).state.disk = [Key.kint 999] ∧
    movie_info_calls_tmdb true (fetch_poster w999 true st0 (MId.mstr "999")).state
      (MId.mstr "999") = true := by
  decide

/-- C1 (amended): an identifier whose normalised key is in the blacklist
never triggers a remote `fetch_poster` request — in the current run, and
in any later run via the durable copy reloaded at restart; `movie_info`
skips its TMDB calls whenever the raw identifier itself is a blacklist
member.  (When the blacklist entry was recorded under a different
representation of the identifier, `movie_info` still calls TMDB, as the
counterexample shows.) -/
theorem C1_blacklist_skips_remote (w w₂ : World) (a a₂ : Bool) (s : St) (mid : MId)
    (hb : toKey mid ∈ s.badIds) (hd : toKey mid ∈ s.disk) :
    (fetch_poster w a s mid).remoteCall = false ∧
    (fetch_poster w₂ a₂ (restart s.disk) mid).remoteCall = false ∧
    (fetch_poster w₂ a₂ (restart s.disk) mid).result = none ∧
    (rawMem mid s.badIds = true → movie_info_calls_tmdb a s mid = false) := by
  refine ⟨?_, ?_, ?_, ?_⟩
  · cases hf : isFalsy mid with
    | true => rw [fp_falsy w a s mid hf]
    | false =>
      cases hc : cacheGet s.posterCache (toKey mid) with
      | some v => rw [fp_hit w a s mid v hf hc]
      | none => rw [fp_bad w a s mid hf hc hb]
  · cases hf : isFalsy mid with
    | true => rw [fp_falsy w₂ a₂ _ mid hf]
    | false => rw [fp_bad w₂ a₂ (restart s.disk) mid hf rfl hd]
  · cases hf : isFalsy mid with
    | true => rw [fp_falsy w₂ a₂ _ mid hf]
    | false => rw [fp_bad w₂ a₂ (restart s.disk) mid hf rfl hd]
  · intro hr
    simp [movie_info_calls_tmdb, hr]

/-- Witness for C1 (amended): a run whose loaded blacklist holds key 999,
queried for the integer identifier 999. -/
theorem C1_blacklist_skips_remote_witness :
    (toKey (MId.mint 999) ∈ badSt.badIds ∧ toKey (MId.mint 999) ∈ badSt.disk) ∧
    ((fetch_poster wNo true badSt (MId.mint 999)).remoteCall = false ∧
     (fetch_poster w999 false (restart badSt.disk) (MId.mint 999)).remoteCall = false ∧
     (fetch_poster w999 false (restart badSt.disk) (MId.mint 999)).result = none ∧
     (rawMem (MId.mint 999) badSt.badIds = true →
       movie_info_calls_tmdb true badSt (MId.mint 999) = false)) :=
  ⟨⟨by decide, by decide⟩,
   C1_blacklist_skips_remote wNo w999 true false badSt (MId.mint 999)
     (by decide) (by decide)⟩

/-! ## Claim C4 -/

/-- C4 fails as stated: a transient failure (here a timeout for id 7) IS
cached — the outcome is recorded in the run-lifetime poster cache, and
the follow-up call is answered from that cache with no retry — although
the negative cache and its durable copy are indeed left unchanged. -/
theorem C4_counterexample :
    fetch_poster wNo true st0 (MId.mint 7) =
      ⟨none, ⟨[(Key.kint 7, none)], [], []⟩, true⟩ ∧
    (fetch_poster wNo true (fetch_poster wNo true st0 (MId.mint 7)).state
        (MId.mint 7)).remoteCall = false := by
  decide

/-- C4 (amended): a definitive 404 is the only outcome that touches the
negative cache — it appends the normalised key and immediately flushes
the whole blacklist to durable storage; every other outcome leaves the
blacklist and the disk file unchanged.  But, contrary to "not cached
anywhere", every completed call on a cache miss records its outcome —
including transient failures, as an absent poster — in the run-lifetime
positive cache. -/
theorem C4_only_404_blacklists (w : World) (a : Bool) (s : St) (mid : MId) :
    (((fetch_poster w a s mid).state.badIds = s.badIds ∧
      (fetch_poster w a s mid).state.disk = s.disk) ∨
     (w (toKey mid) = Resp.notFound ∧
      (fetch_poster w a s mid).state.badIds = toKey mid :: s.badIds ∧
      (fetch_poster w a s mid).state.disk = toKey mid :: s.badIds)) ∧
    (isFalsy mid = false → cacheGet s.posterCache (toKey mid) = none →
      (fetch_poster w a s mid).state.posterCache =
        (toKey mid, (fetch_poster w a s mid).result) :: s.posterCache) := by
  constructor
  · cases hf : isFalsy mid with
    | true => rw [fp_falsy w a s mid hf]; exact Or.inl ⟨rfl, rfl⟩
    | false =>
      cases hc : cacheGet s.posterCache (toKey mid) with
      | some v => rw [fp_hit w a s mid v hf hc]; exact Or.inl ⟨rfl, rfl⟩
      | none =>
        by_cases hb : toKey mid ∈ s.badIds
        · rw [fp_bad w a s mid hf hc hb]; exact Or.inl ⟨rfl, rfl⟩
        · cases a with
          | false => rw [fp_nokey w s mid hf hc hb]; exact Or.inl ⟨rfl, rfl⟩
          | true =>
            cases hw : w (toKey mid) with
            | noResp => rw [fp_noResp w s mid hf hc hb hw]; exact Or.inl ⟨rfl, rfl⟩
            | notFound => rw [fp_404 w s mid hf hc hb hw]; exact Or.inr ⟨rfl, rfl, rfl⟩
            | badStatus => rw [fp_badStatus w s mid hf hc hb hw]; exact Or.inl ⟨rfl, rfl⟩
            | okMalformed => rw [fp_malformed w s mid hf hc hb hw]; exact Or.inl ⟨rfl, rfl⟩
            | okJson p =>
              by_cases hp : p = ""
              · subst hp
                rw [fp_okJson_empty w s mid hf hc hb hw]; exact Or.inl ⟨rfl, rfl⟩
              · rw [fp_okJson_pos w s mid p hf hc hb hw hp]; exact Or.inl ⟨rfl, rfl⟩
  · intro h hc
    exact fp_cache_write w a s mid h hc

/-- Witness for C4 (amended), at a timed-out request for id 7. -/
theorem C4_only_404_blacklists_witness :
    (isFalsy (MId.mint 7) = false ∧ cacheGet st0.posterCache (toKey (MId.mint 7)) = none) ∧
    (fetch_poster wNo true st0 (MId.mint 7)).state.posterCache =
      (toKey (MId.mint 7), (fetch_poster wNo true st0 (MId.mint 7)).result) ::
        st0.posterCache :=
  ⟨⟨by decide, by decide⟩,
   (C4_only_404_blacklists wNo true st0 (MId.mint 7)).2 (by decide) (by decide)⟩

/-! ## Claim C5 -/

/-- C5: `get_movie_details` resolves the poster with local-first
precedence — a non-empty embedded poster field (stripped, expanded to an
absolute URL) is used as-is with no remote interaction and no state
change; only when it is absent is the `fetch_poster` result used; when
that too yields nothing the fixed placeholder is substituted — and the
returned poster is never empty. -/
theorem C5_poster_precedence (w : World) (a : Bool) (s : St) (row : MovieRec) :
    (∀ p, extract_existing_poster row = some p →
      get_movie_details w a s row =
        ⟨⟨row.title, p, row.movie_id, row.year, row.vote_average⟩, s, false⟩) ∧
    (extract_existing_poster row = none →
      ∀ u, (fetch_poster w a s row.movie_id).result = some u → u ≠ "" →
        (get_movie_details w a s row).det.poster = u ∧
        (get_movie_details w a s row).state = (fetch_poster w a s row.movie_id).state) ∧
    (extract_existing_poster row = none →
      (fetch_poster w a s row.movie_id).result = none →
        (get_movie_details w a s row).det.poster = PLACEHOLDER_POSTER) ∧
    (get_movie_details w a s row).det.poster ≠ "" := by
  refine ⟨?_, ?_, ?_, ?_⟩
  · intro p hp
    have hne := extract_ne_empty row p hp
    simp [get_movie_details, hp, optTruthy, hne]
  · intro hn u hu hune
    simp [get_movie_details, hn, optTruthy, hu, hune]
  · intro hn hu
    simp [get_movie_details, hn, optTruthy, hu]
  · unfold get_movie_details
    cases hp : optTruthy (extract_existing_poster row) with
    | true => simpa [hp] using optTruthy_getD_ne _ hp
    | false =>
      simp only [hp]
      cases hq : optTruthy (fetch_poster w a s row.movie_id).result with
      | true => simpa [hq] using optTruthy_getD_ne _ hq
      | false => simp [hq, PLACEHOLDER_POSTER]

/-- Witness for C5: a row with the embedded relative poster `/p.jpg`. -/
theorem C5_poster_precedence_witness :
    extract_existing_poster rowP = some "https://image.tmdb.org/t/p/w500/p.jpg" ∧
    get_movie_details wNo true st0 rowP =
      ⟨⟨"T", "https://image.tmdb.org/t/p/w500/p.jpg", MId.mnone, none, none⟩,
       st0, false⟩ :=
  ⟨by decide,
   (C5_poster_precedence wNo true st0 rowP).1
     "https://image.tmdb.org/t/p/w500/p.jpg" (by decide)⟩

/-! ## Claim C8 -/

theorem firstIdx_eq_none (p : MovieRec → Bool) (l : List MovieRec)
    (h : ∀ r ∈ l, p r = false) : firstIdx p l = none := by
  induction l with
  | nil => rfl
  | cons r rest ih =>
    simp [firstIdx, h r (List.mem_cons_self r rest),
      ih (fun x hx => h x (List.mem_cons_of_mem r hx))]

/-- C8: for a title absent from the catalog both exactly and
case-insensitively, `recommend` returns an empty sequence (and cannot
raise); the lookup tries the exact title column first and only then the
lower-cased comparison. -/
theorem C8_unknown_title_empty :
    (∀ (w : World) (a : Bool) (s : St) (cat : List MovieRec)
       (sim : List (List ℚ)) (movie : String),
       (∀ r ∈ cat, r.title ≠ movie) →
       (∀ r ∈ cat, pyLower r.title ≠ pyLower movie) →
       recommend w a s (some cat) (some sim) movie = ([], s)) ∧
    (∀ (cat : List MovieRec) (movie : String) (i : Nat),
       firstIdx (fun r => r.title == movie) cat = some i →
       findTitleIndex cat movie = some i) ∧
    (∀ (cat : List MovieRec) (movie : String),
       firstIdx (fun r => r.title == movie) cat = none →
       findTitleIndex cat movie =
         firstIdx (fun r => pyLower r.title == pyLower movie) cat) := by
  refine ⟨?_, ?_, ?_⟩
  · intro w a s cat sim movie hx hl
    have he := firstIdx_eq_none (fun r => r.title == movie) cat (fun r hr => by
      simpa using hx r hr)
    have hc := firstIdx_eq_none (fun r => pyLower r.title == pyLower movie) cat
      (fun r hr => by simpa using hl r hr)
    by_cases hm : movie = ""
    · simp [recommend, hm]
    · simp [recommend, hm, findTitleIndex, he, hc]
  · intro cat movie i h
    simp [findTitleIndex, h]
  · intro cat movie h
    simp [findTitleIndex, h]

/-- Witness for C8: the title `Zzz` is absent from the two-movie catalog
in both comparisons. -/
theorem C8_unknown_title_empty_witness :
    ((∀ r ∈ catA, r.title ≠ "Zzz") ∧ (∀ r ∈ catA, pyLower r.title ≠ pyLower "Zzz")) ∧
    recommend wNo true st0 (some catA) (some simA) "Zzz" = ([], st0) :=
  ⟨⟨by decide, by decide⟩,
   C8_unknown_title_empty.1 wNo true st0 catA simA "Zzz" (by decide) (by decide)⟩

/-! ## Claim C6 -/

/-- C6 is the intent but the code violates it: the same movie with genre
set {Action} is returned when the genres are stored as the list
`["Action"]` and dropped when they are stored as the delimited string
`"Action"` — the filter lambda yields `False` for every non-list cell
without raising, so the `str.contains` fallback branch is unreachable. -/
theorem C6_failing_input_eval :
    (get_movies_by_genre wNo true st0 (some catGL) true "Action" 20).1 =
      [⟨"M", PLACEHOLDER_POSTER, MId.mnone, none, some 8⟩] ∧
    (get_movies_by_genre wNo true st0 (some catGS) true "Action" 20).1 = [] := by
  decide

/-! ## Lemmas about `resolveAll` output fields -/

theorem resolveAll_cons (w : World) (a : Bool) (s : St) (row : MovieRec)
    (rest : List MovieRec) :
    resolveAll w a s (row :: rest) =
      ((get_movie_details w a s row).det ::
         (resolveAll w a (get_movie_details w a s row).state rest).1,
       (resolveAll w a (get_movie_details w a s row).state rest).2) := rfl

theorem gmd_rating (w : World) (a : Bool) (s : St) (row : MovieRec) :
    (get_movie_details w a s row).det.rating = row.vote_average := by
  cases hp : optTruthy (extract_existing_poster row) <;> simp [get_movie_details, hp]

theorem gmd_title (w : World) (a : Bool) (s : St) (row : MovieRec) :
    (get_movie_details w a s row).det.title = row.title := by
  cases hp : optTruthy (extract_existing_poster row) <;> simp [get_movie_details, hp]

theorem resolveAll_map_rating (w : World) (a : Bool) :
    ∀ (rows : List MovieRec) (s : St),
      (resolveAll w a s rows).1.map Details.rating = rows.map MovieRec.vote_average := by
  intro rows
  induction rows with
  | nil => intro s; rfl
  | cons r rest ih =>
    intro s
    rw [resolveAll_cons]
    simp [gmd_rating, ih]

theorem resolveAll_rating_mem (w : World) (a : Bool) (rows : List MovieRec) (s : St)
    (d : Details) (hd : d ∈ (resolveAll w a s rows).1) :
    ∃ r ∈ rows, d.rating = r.vote_average := by
  have hm : d.rating ∈ (resolveAll w a s rows).1.map Details.rating :=
    List.mem_map_of_mem _ hd
  rw [resolveAll_map_rating] at hm
  obtain ⟨r, hr, he⟩ := List.mem_map.mp hm
  exact ⟨r, hr, he.symm⟩

theorem colVal_va (r : MovieRec) : colVal "vote_average" r = r.vote_average := by
  simp [colVal]

/-! ## Cache monotonicity and second-pass stability -/

theorem cacheExt_refl (c : List (Key × Option String)) : cacheExt c c :=
  fun _ _ h => h

theorem cacheExt_trans {c₁ c₂ c₃ : List (Key × Option String)}
    (h1 : cacheExt c₁ c₂) (h2 : cacheExt c₂ c₃) : cacheExt c₁ c₃ :=
  fun k v h => h2 k v (h1 k v h)

theorem cacheExt_cons_of_none {c : List (Key × Option String)} {k : Key}
    (v : Option String) (h : cacheGet c k = none) : cacheExt c ((k, v) :: c) := by
  intro k' v' h'
  unfold cacheGet
  by_cases he : k = k'
  · subst he; rw [h] at h'; exact absurd h' (by simp)
  · simpa [he] using h'

theorem fp_ext (w : World) (a : Bool) (s : St) (mid : MId) :
    cacheExt s.posterCache (fetch_poster w a s mid).state.posterCache := by
  cases hf : isFalsy mid with
  | true => rw [fp_falsy w a s mid hf]; exact cacheExt_refl _
  | false =>
    cases hc : cacheGet s.posterCache (toKey mid) with
    | some v => rw [fp_hit w a s mid v hf hc]; exact cacheExt_refl _
    | none =>
      rw [fp_cache_write w a s mid hf hc]
      exact cacheExt_cons_of_none _ hc

theorem gmd_ext (w : World) (a : Bool) (s : St) (row : MovieRec) :
    cacheExt s.posterCache (get_movie_details w a s row).state.posterCache := by
  cases hp : optTruthy (extract_existing_poster row) with
  | true => simp only [get_movie_details, hp, if_true]; exact cacheExt_refl _
  | false =>
    have hs : (get_movie_details w a s row).state =
        (fetch_poster w a s row.movie_id).state := by
      simp [get_movie_details, hp]
    rw [hs]
    exact fp_ext w a s row.movie_id

theorem resolveAll_ext (w : World) (a : Bool) :
    ∀ (rows : List MovieRec) (s : St),
      cacheExt s.posterCache (resolveAll w a s rows).2.posterCache := by
  intro rows
  induction rows with
  | nil => intro s; exact cacheExt_refl _
  | cons row rest ih =>
    intro s
    rw [resolveAll_cons]
    exact cacheExt_trans (gmd_ext w a s row) (ih (get_movie_details w a s row).state)

/-- Once a call's outcome is visible in a (possibly later) cache, running
the same call against that cache returns the same value without touching
anything. -/
theorem fp_stable (w : World) (a : Bool) (s t : St) (mid : MId)
    (hext : cacheExt (fetch_poster w a s mid).state.posterCache t.posterCache) :
    fetch_poster w a t mid = ⟨(fetch_poster w a s mid).result, t, false⟩ := by
  cases hf : isFalsy mid with
  | true => rw [fp_falsy w a t mid hf, fp_falsy w a s mid hf]
  | false =>
    have hc := fp_result_cached w a s mid hf
    exact fp_hit w a t mid _ hf (hext _ _ hc)

theorem gmd_stable (w : World) (a : Bool) (s t : St) (row : MovieRec)
    (hext : cacheExt (get_movie_details w a s row).state.posterCache t.posterCache) :
    get_movie_details w a t row = ⟨(get_movie_details w a s row).det, t, false⟩ := by
  cases hp : optTruthy (extract_existing_poster row) with
  | true => simp [get_movie_details, hp]
  | false =>
    have hs : (get_movie_details w a s row).state =
        (fetch_poster w a s row.movie_id).state := by
      simp [get_movie_details, hp]
    rw [hs] at hext
    have hfp := fp_stable w a s t row.movie_id hext
    simp [get_movie_details, hp, hfp]

/-- Re-resolving the same rows from the state the first pass produced
returns the identical detail list and changes nothing. -/
theorem resolveAll_stable (w : World) (a : Bool) :
    ∀ (rows : List MovieRec) (s t : St),
      cacheExt (resolveAll w a s rows).2.posterCache t.posterCache →
      resolveAll w a t rows = ((resolveAll w a s rows).1, t) := by
  intro rows
  induction rows with
  | nil => intro s t _; rfl
  | cons row rest ih =>
    intro s t hext
    rw [resolveAll_cons] at hext
    have hext2 : cacheExt (get_movie_details w a s row).state.posterCache
        t.posterCache :=
      cacheExt_trans (resolveAll_ext w a rest (get_movie_details w a s row).state) hext
    have hgmd := gmd_stable w a s t row hext2
    have hrest := ih (get_movie_details w a s row).state t hext
    rw [resolveAll_cons, hgmd]
    simp only [hrest, resolveAll_cons]

theorem resolveAll_length (w : World) (a : Bool) :
    ∀ (rows : List MovieRec) (s : St),
      (resolveAll w a s rows).1.length = rows.length := by
  intro rows
  induction rows with
  | nil => intro s; rfl
  | cons row rest ih =>
    intro s
    rw [resolveAll_cons]
    simp [ih]

/-! ## Claim C7 -/

/-- C7: every record returned by the top-rated curated listing has a
present rating with 0 < rating ≤ 10 — records with a missing or
non-positive rating never appear — and the returned records are ordered
by non-increasing rating. -/
theorem C7_top_rated (w : World) (a : Bool) (s : St) (cat : List MovieRec) (n : Nat) :
    (∀ d ∈ (get_curated_movies w a s (some cat) "vote_average" n).1,
       ∃ q, d.rating = some q ∧ 0 < q ∧ q ≤ 10) ∧
    List.Sorted ovalGe
      ((get_curated_movies w a s (some cat) "vote_average" n).1.map Details.rating) := by
  have hcur : get_curated_movies w a s (some cat) "vote_average" n =
      resolveAll w a s
        ((List.insertionSort (rowGe "vote_average")
          ((cat.filter ratingInRange).filter
            (fun r => (colVal "vote_average" r).isSome))).take n) := by
    simp [get_curated_movies]
  constructor
  · intro d hd
    rw [hcur] at hd
    obtain ⟨r, hr, he⟩ := resolveAll_rating_mem w a _ s d hd
    have hr2 : r ∈ List.insertionSort (rowGe "vote_average")
        ((cat.filter ratingInRange).filter
          (fun r => (colVal "vote_average" r).isSome)) :=
      List.take_subset n _ hr
    have hr3 := (List.perm_insertionSort (rowGe "vote_average") _).mem_iff.mp hr2
    have hr4 := (List.mem_filter.mp hr3).1
    have hrange := (List.mem_filter.mp hr4).2
    unfold ratingInRange at hrange
    cases hv : r.vote_average with
    | none => rw [hv] at hrange; exact absurd hrange (by simp)
    | some q =>
      rw [hv] at hrange
      have := of_decide_eq_true hrange
      exact ⟨q, by rw [he, hv], this.1, this.2⟩
  · rw [hcur, resolveAll_map_rating]
    have hs : List.Sorted (rowGe "vote_average")
        (List.insertionSort (rowGe "vote_average")
          ((cat.filter ratingInRange).filter
            (fun r => (colVal "vote_average" r).isSome))) :=
      List.sorted_insertionSort _ _
    have ht : List.Sorted (rowGe "vote_average")
        ((List.insertionSort (rowGe "vote_average")
          ((cat.filter ratingInRange).filter
            (fun r => (colVal "vote_average" r).isSome))).take n) :=
      List.Pairwise.sublist (List.take_sublist n _) hs
    simp only [List.Sorted] at ht ⊢
    rw [List.pairwise_map]
    exact ht.imp (fun hab => by rwa [rowGe, colVal_va, colVal_va] at hab)

/-- Witness for C7: from the four-movie catalog `catR` only the movie
with rating 8 survives the filter, and its rating lies in (0, 10]. -/
theorem C7_top_rated_witness :
    (⟨"P", PLACEHOLDER_POSTER, MId.mnone, none, some 8⟩ : Details) ∈
      (get_curated_movies wNo true st0 (some catR) "vote_average" 20).1 ∧
    ∃ q, (⟨"P", PLACEHOLDER_POSTER, MId.mnone, none, some 8⟩ : Details).rating = some q ∧
      0 < q ∧ q ≤ 10 :=
  ⟨by decide, (C7_top_rated wNo true st0 catR 20).1 _ (by decide)⟩

/-! ## Claim C2 -/

theorem sel_sorted (sim : List (List ℚ)) (idx : Nat) :
    List.Sorted scoreLe (recommendSel sim idx) := by
  unfold recommendSel pySortDesc
  exact List.Pairwise.sublist
    ((List.take_sublist 5 _).trans (List.drop_sublist 1 _))
    (List.sorted_insertionSort scoreLe _)

/-- When the queried row position holds the strict maximum of its row,
`distances[0]` is the query's own entry, so dropping it removes exactly
the queried record from the selection. -/
theorem sel_excludes_top (row : List ℚ) (idx : Nat)
    (_hlt : idx < row.length)
    (hmax : ∀ j, j < row.length → j ≠ idx → row.getD j 0 < row.getD idx 0) :
    ∀ p ∈ ((pySortDesc row.enum).drop 1).take 5, p.1 ≠ idx := by
  intro p hp hpi
  have hperm : List.Perm (pySortDesc row.enum) row.enum :=
    List.perm_insertionSort scoreLe row.enum
  have hsorted : List.Sorted scoreLe (pySortDesc row.enum) :=
    List.sorted_insertionSort scoreLe row.enum
  have hnodup : (pySortDesc row.enum).Nodup :=
    hperm.nodup_iff.mpr (List.Nodup.of_map Prod.fst (List.nodup_enum_map_fst row))
  cases hsort : pySortDesc row.enum with
  | nil => rw [hsort] at hp; simp at hp
  | cons h0 t =>
    rw [hsort] at hp hperm hsorted hnodup
    simp only [List.drop_succ_cons, List.drop_zero] at hp
    have hp2 : p ∈ t := List.take_subset 5 t hp
    have hp_enum : p ∈ row.enum := hperm.subset (List.mem_cons_of_mem h0 hp2)
    have h0_enum : h0 ∈ row.enum := hperm.subset (List.mem_cons_self h0 t)
    have hp5 : row[p.1]? = some p.2 := by
      have := List.mk_mem_enum_iff_getElem?.mp (by
        have : (p.1, p.2) = p := rfl
        rw [this]; exact hp_enum)
      exact this
    have h05 : row[h0.1]? = some h0.2 := by
      have := List.mk_mem_enum_iff_getElem?.mp (by
        have : (h0.1, h0.2) = h0 := rfl
        rw [this]; exact h0_enum)
      exact this
    have hpv : p.2 = row.getD idx 0 := by
      rw [List.getD_eq_getElem?_getD, ← hpi, hp5]; rfl
    have hrel : scoreLe h0 p := (List.pairwise_cons.mp hsorted).1 p hp2
    have hne : h0 ≠ p := by
      intro he
      exact (List.nodup_cons.mp hnodup).1 (he ▸ hp2)
    by_cases hcase : h0.1 = idx
    · have h02 : h0.2 = p.2 := by
        have := h05
        rw [hcase, ← hpi, hp5] at this
        exact (Option.some.inj this).symm
      exact hne (Prod.ext_iff.mpr ⟨hcase.trans hpi.symm, h02⟩)
    · have hb : h0.1 < row.length := by
        rcases List.getElem?_eq_some.mp h05 with ⟨hh, _⟩
        exact hh
      have h0v : h0.2 = row.getD h0.1 0 := by
        rw [List.getD_eq_getElem?_getD, h05]; rfl
      have hltv : h0.2 < p.2 := by
        rw [h0v, hpv]
        exact hmax h0.1 hb hcase
      rcases hrel with h | ⟨he, _⟩
      · exact absurd hltv (lt_asymm h)
      · exact absurd hltv (by rw [he]; exact lt_irrefl p.2)

/-- C2 fails as stated: the code drops `distances[0]`, not the queried
record.  In a two-movie catalog where the other movie outranks the query
in the query's own similarity row, `recommend "A"` returns the record of
`"A"` itself. -/
theorem C2_counterexample :
    findTitleIndex catA "A" = some 0 ∧
    (catA.getD 0 default).title = "A" ∧
    (recommend wNo true st0 (some catA) (some simA) "A").1 =
      [⟨"A", PLACEHOLDER_POSTER, MId.mnone, none, none⟩] := by
  decide

/-- C2 (amended): for a title found at catalog index `idx`,
`recommend` resolves the entries `distances[1:6]` of the stably
descending-sorted similarity row — at most 5 records, ordered by
non-increasing score with ties broken by original catalog order — and a
second call on the unchanged catalog and matrix returns the identical
list; the queried record itself is excluded whenever its own entry ranks
first, in particular whenever its self-similarity is the strict maximum
of its row (when another entry outranks or tie-precedes it, the query
itself can appear, as the counterexample shows). -/
theorem C2_recommend_ranking (w : World) (a : Bool) (s : St)
    (cat : List MovieRec) (sim : List (List ℚ)) (movie : String) (idx : Nat)
    (hm : movie ≠ "") (hidx : findTitleIndex cat movie = some idx) :
    recommend w a s (some cat) (some sim) movie =
      resolveAll w a s ((recommendSel sim idx).map (fun p => cat.getD p.1 default)) ∧
    (recommend w a s (some cat) (some sim) movie).1.length ≤ 5 ∧
    List.Sorted scoreLe (recommendSel sim idx) ∧
    (idx < (sim.getD idx []).length →
      (∀ j, j < (sim.getD idx []).length → j ≠ idx →
        (sim.getD idx []).getD j 0 < (sim.getD idx []).getD idx 0) →
      ∀ p ∈ recommendSel sim idx, p.1 ≠ idx) ∧
    recommend w a (recommend w a s (some cat) (some sim) movie).2
        (some cat) (some sim) movie =
      ((recommend w a s (some cat) (some sim) movie).1,
       (recommend w a s (some cat) (some sim) movie).2) := by
  have heq : recommend w a s (some cat) (some sim) movie =
      resolveAll w a s ((recommendSel sim idx).map (fun p => cat.getD p.1 default)) := by
    simp [recommend, hm, hidx]
  refine ⟨heq, ?_, sel_sorted sim idx, ?_, ?_⟩
  · rw [heq, resolveAll_length, List.length_map]
    unfold recommendSel
    exact List.length_take_le 5 _
  · intro hlt hmax
    exact sel_excludes_top _ idx hlt hmax
  · rw [heq]
    have h3 : recommend w a
        (resolveAll w a s ((recommendSel sim idx).map (fun p => cat.getD p.1 default))).2
        (some cat) (some sim) movie =
        resolveAll w a
          (resolveAll w a s ((recommendSel sim idx).map (fun p => cat.getD p.1 default))).2
          ((recommendSel sim idx).map (fun p => cat.getD p.1 default)) := by
      simp [recommend, hm, hidx]
    rw [h3]
    exact resolveAll_stable w a _ s _ (cacheExt_refl _)

/-- Witness for C2 (amended): querying `"B"` in the two-movie catalog;
B's self-similarity 3 is the strict maximum of its row, so B is excluded
and at most 5 records return. -/
theorem C2_recommend_ranking_witness :
    ("B" ≠ "" ∧ findTitleIndex catA "B" = some 1) ∧
    (recommend wNo true st0 (some catA) (some simA) "B").1.length ≤ 5 ∧
    (∀ p ∈ recommendSel simA 1, p.1 ≠ 1) :=
  ⟨⟨by decide, by decide⟩,
   (C2_recommend_ranking wNo true st0 catA simA "B" 1 (by decide) (by decide)).2.1,
   (C2_recommend_ranking wNo true st0 catA simA "B" 1 (by decide)
       (by decide)).2.2.2.1 (by decide) (by decide)⟩
